import Mathlib

/-!
Verification development for the chat-proxy interface repository.

This file gives a shallow embedding of the core program logic:
the thinking-tag filter (`stripThinking`), the upstream gateway client
(`GatewayClient` in `src/gateway.ts`), and the downstream chat sockets
(`ChatSocket` / `FederatedChatSocket` in the API client module), and proves
properties of the specification against those definitions.

Stateful classes are embedded as explicit state records plus pure transition
functions returning (new state, list of observable effects).  JavaScript
strings are modelled as Lean `String`/`List Char`; JS `setTimeout` timers are
modelled as boolean/option fields plus explicit timer-fire events; promise
resolution and socket I/O are modelled as effects.
-/

/- ### JavaScript primitives -/

/-- Character class matched by `\s` in a JavaScript regex (and the characters
removed by `String.prototype.trim`): ASCII whitespace, NBSP, and the Unicode
space separators / line terminators / BOM. -/
def jsSpace (c : Char) : Bool :=
  [9, 10, 11, 12, 13, 32, 160, 0x1680, 0x2028, 0x2029, 0x202f,
    0x205f, 0x3000, 0xfeff].contains c.toNat
  || (0x2000 ≤ c.toNat && c.toNat ≤ 0x200a)

/-- Character class matched by `\w` in a JavaScript regex (used by the
word-boundary assertion `\b`). -/
def jsWordChar (c : Char) : Bool :=
  (97 ≤ c.toNat && c.toNat ≤ 122) || (65 ≤ c.toNat && c.toNat ≤ 90)
  || (48 ≤ c.toNat && c.toNat ≤ 57) || c.toNat == 95

/-- ASCII lower-casing, as used by a case-insensitive (`/i`) regex match on
the ASCII tag names. -/
def asciiLower (c : Char) : Char :=
  if 65 ≤ c.toNat && c.toNat ≤ 90 then Char.ofNat (c.toNat + 32) else c

/-- JS truthiness of an optional string field: `undefined` and the empty
string are falsy. -/
def jsTruthy : Option String → Bool
  | some s => s != ""
  | none => false

/- ### Thinking Filter (`stripThinking`)

Source (hooks module):
```
export function stripThinking(text: string): string {
  return text
    .replace(/<\s*\/?(?:think(?:ing)?|thought|antthinking)\b[^>]*>/gi, '')
    .trim();
}
```
The regex is embedded literally: at each scan position the matcher tries
`<`, then greedily `\s*`, then an optional `/`, then the tag-name
alternation (in the regex backtracking order `thinking`, `think`,
`thought`, `antthinking`, each followed by the `\b` assertion), then
`[^>]*>` (greedy up to the next `>`).  `replace` with the `g` flag scans
left to right and resumes after each match without rescanning the
replaced region. -/

/-- The tag-name candidates in the order the regex engine tries them:
`think(?:ing)?` greedily prefers `thinking` and backtracks to `think`,
then the alternation falls through to `thought` and `antthinking`. -/
def tagNames : List (List Char) :=
  ["thinking".data, "think".data, "thought".data, "antthinking".data]

/-- Case-insensitively match a literal name at the head of the input;
returns the remaining input on success. -/
def matchNameCI : List Char → List Char → Option (List Char)
  | [], rest => some rest
  | _ :: _, [] => none
  | p :: ps, c :: cs =>
    if asciiLower c == asciiLower p then matchNameCI ps cs else none

/-- The `\b` assertion after a tag name: the previous character is a word
character (the names end in letters), so the boundary holds iff the next
character is absent or not a word character. -/
def wordBoundaryAfterName : List Char → Bool
  | [] => true
  | c :: _ => !(jsWordChar c)

/-- Try the name candidates in backtracking order; a candidate succeeds only
if the `\b` assertion after it also holds, otherwise the engine backtracks
to the next candidate. -/
def firstNameMatch : List (List Char) → List Char → Option (List Char)
  | [], _ => none
  | n :: ns, cs =>
    match matchNameCI n cs with
    | some rest => if wordBoundaryAfterName rest then some rest else firstNameMatch ns cs
    | none => firstNameMatch ns cs

/-- The regex piece `[^>]*>`: greedy run of non-`>` characters followed by `>`; equivalently,
consume through the first `>`, failing if there is none. -/
def skipToGt : List Char → Option (List Char)
  | [] => none
  | c :: cs => if c == '>' then some cs else skipToGt cs

/-- Match the whole tag regex at the head of the input; returns the input
after the match.  The optional `/` needs no backtracking: if the name fails
after consuming `/`, retrying without consuming it would have to match a
name starting at `/`, which is impossible since every name starts with a
letter. -/
def matchTag : List Char → Option (List Char)
  | '<' :: rest =>
    let rest1 := rest.dropWhile jsSpace
    let rest2 := match rest1 with
      | '/' :: r => r
      | _ => rest1
    match firstNameMatch tagNames rest2 with
    | some rest3 => skipToGt rest3
    | none => none
  | _ => none

/-- Global left-to-right replace-by-empty scan, with explicit fuel so the
definition is structurally recursive (each successful match consumes at
least two characters, so fuel equal to the input length always suffices). -/
def stripScanFuel : Nat → List Char → List Char
  | 0, l => l
  | _, [] => []
  | fuel + 1, c :: cs =>
    match matchTag (c :: cs) with
    | some rest => stripScanFuel fuel rest
    | none => c :: stripScanFuel fuel cs

/-- The call `text.replace(/<\s*\/?(?:think(?:ing)?|thought|antthinking)\b[^>]*>/gi, '')`
on the character list. -/
def stripScan (l : List Char) : List Char :=
  stripScanFuel l.length l

/-- JS `String.prototype.trim`: drop `jsSpace` characters from both ends. -/
def jsTrim (l : List Char) : List Char :=
  ((l.dropWhile jsSpace).reverse.dropWhile jsSpace).reverse

/-- The Thinking Filter, `stripThinking` from the source. -/
def stripThinking (text : String) : String :=
  ⟨jsTrim (stripScan text.data)⟩

example : stripThinking "<think>deliberating</think>Answer: 42" = "deliberatingAnswer: 42" := by
  decide

example : stripThinking "  <THINKING a=1>keep me</Thought>  " = "keep me" := by decide

example : stripThinking "<th<think>ink>x" = "<think>x" := by decide

example : stripThinking "<think>x" = "x" := by decide

/- ### Decimal rendering and correlation ids

`nextId` in `src/gateway.ts`:
```
let reqCounter = 0;
function nextId(): string {
  return `r${++reqCounter}_${Date.now()}`;
}
```
The module-level counter is threaded through the client state
(`reqCounter`); the wall clock is an explicit `now` argument.  JS number
interpolation of a nonnegative integer renders it in decimal. -/

def digitChar (d : Nat) : Char := Char.ofNat (48 + d)

/-- Most-significant-first decimal digits of a positive number, with fuel
for structural recursion (fuel `n + 1` always suffices). -/
def decimalDigitsCore : Nat → Nat → List Char
  | 0, _ => []
  | _, 0 => []
  | fuel + 1, n => decimalDigitsCore fuel (n / 10) ++ [digitChar (n % 10)]

/-- Decimal digits of a natural number, as JS `String(n)` renders it. -/
def decimalDigits (n : Nat) : List Char :=
  if n = 0 then ['0'] else decimalDigitsCore (n + 1) n

def natToDecimal (n : Nat) : String := ⟨decimalDigits n⟩

/-- The function `nextId`, applied to the already-incremented counter value and the
current `Date.now()` timestamp. -/
def nextId (counter now : Nat) : String :=
  "r" ++ natToDecimal counter ++ "_" ++ natToDecimal now

example : nextId 3 17 = "r3_17" := by decide

/- ### GatewayClient (src/gateway.ts) -/

/-- Structure `GatewayConfig` from `src/types.ts`; the optional secrets are `Option`s. -/
structure GatewayConfig where
  id : String
  name : String
  url : String
  token : Option String
  password : Option String
deriving DecidableEq

/-- The `auth` object built by `sendConnect` (a field is present iff the
configured secret is truthy). -/
structure ConnectAuth where
  token : Option String
  password : Option String
deriving DecidableEq

/-- The `client` descriptor sent in the `connect` request. -/
structure ClientInfo where
  id : String
  version : String
  platform : String
  mode : String
  instanceId : String
deriving DecidableEq

/-- The `params` of the `connect` request built by `sendConnect`. -/
structure ConnectParams where
  auth : Option ConnectAuth
  role : String
  scopes : List String
  permissions : List (String × Bool)
  client : ClientInfo
  minProtocol : Nat
  maxProtocol : Nat
deriving DecidableEq

/-- Request parameters: the structured `connect` params, or an opaque
placeholder for the params of any other method. -/
inductive ReqParams
  | connect (p : ConnectParams)
  | other (raw : String)
deriving DecidableEq

/-- An outbound wire frame (this client only ever sends `type:"req"`
frames). -/
inductive Frame
  | req (id : String) (method : String) (params : ReqParams)
deriving DecidableEq

/-- An inbound frame after `JSON.parse`: an event, a response
(`ok : Option Bool` distinguishes absent / `true` / `false`, and `error`
is the message of an `error` object when one is present), or a parse
failure (the handler returns without effect). -/
inductive WireMsg
  | event (event : String) (payload : String)
  | res (id : String) (ok : Option Bool) (error : Option String)
  | parseError
deriving DecidableEq

/-- Rejection reasons; each constructor corresponds to one `new Error(...)`
site in `src/gateway.ts`. -/
inductive GWError
  | notConnected
  | timeout
  | connectionClosed (message : String)
  | connectionTimeout
  | wsError
  | upstream (message : String)
  | disconnected
deriving DecidableEq

/-- The spec error kind `ConnectionLost` corresponds to the
`Connection closed: ...` rejections raised by the close handler. -/
def GWError.isConnectionLost : GWError → Bool
  | GWError.connectionClosed _ => true
  | _ => false

/-- Observable actions of a transition: frames written to the socket,
pending-promise completions, subscriber emissions, timer arming, and
`ws.close()` calls. -/
inductive GWEffect
  | sentFrame (f : Frame)
  | resolved (id : String)
  | rejected (id : String) (e : GWError)
  | connectResolved
  | connectRejected (e : GWError)
  | emitted (event : String)
  | timerSet (delayMs : Nat)
  | wsClose
deriving DecidableEq

/-- WebSocket readyState, reduced to the phases the client code
distinguishes. -/
inductive WsPhase
  | connecting
  | opened
  | closed
deriving DecidableEq

/-- The mutable fields of `GatewayClient` (plus the module-level
`reqCounter`).  `connectWaiting` models `connectResolve`/`connectReject`
being non-null; `dialTimer` models the live 15-second `setTimeout` created
in `_connect`; `reconnectTimer` holds the delay of an armed reconnect
timer. -/
structure GWState where
  ws : Option WsPhase
  pending : List (String × Nat)
  connected : Bool
  reconnectTimer : Option Nat
  reconnectAttempts : Nat
  shouldReconnect : Bool
  connectWaiting : Bool
  connectId : Option String
  dialTimer : Bool
  reqCounter : Nat
deriving DecidableEq

def GatewayClient.maxReconnectAttempts : Nat := 10

/-- The default `timeoutMs = 30000` of `request`. -/
def GatewayClient.defaultTimeoutMs : Nat := 30000

/-- Association-list lookup for the pending map (JS `Map.get`). -/
def pendingLookup : List (String × Nat) → String → Option Nat
  | [], _ => none
  | e :: rest, id => if e.1 == id then some e.2 else pendingLookup rest id

/-- Association-list removal for the pending map (JS `Map.delete`; keys are
unique in every reachable state). -/
def pendingDelete : List (String × Nat) → String → List (String × Nat)
  | [], _ => []
  | e :: rest, id => if e.1 == id then rest else e :: pendingDelete rest id

/-- Method `flushPending`: reject every pending request with the given error and
clear the table. -/
def GatewayClient.flushPending (st : GWState) (e : GWError) : GWState × List GWEffect :=
  ({ st with pending := [] }, st.pending.map fun p => GWEffect.rejected p.1 e)

/-- Method `scheduleReconnect`: give up with a `reconnect_failed` emission once the
attempt budget is exhausted; otherwise compute the backoff delay, bump the
counter, emit `reconnecting`, and arm the timer. -/
def GatewayClient.scheduleReconnect (st : GWState) : GWState × List GWEffect :=
  if GatewayClient.maxReconnectAttempts ≤ st.reconnectAttempts then
    (st, [GWEffect.emitted "reconnect_failed"])
  else
    let delay := min (1000 * 2 ^ st.reconnectAttempts) 30000
    ({ st with reconnectAttempts := st.reconnectAttempts + 1, reconnectTimer := some delay },
     [GWEffect.emitted "reconnecting", GWEffect.timerSet delay])

/-- JS `a || b` on strings (empty string is falsy), used for
`e.reason || ...` in the close handler. -/
def jsOrStr (a b : String) : String := if a == "" then b else a

/-- The `close` listener installed in `_connect`: clear the dial timer,
remember and reset `_connected`, reject a still-waiting `connect()` promise,
flush all pending requests, emit `disconnected`, and schedule a reconnect
only if the socket was connected and reconnection is enabled. -/
def GatewayClient.onClose (st : GWState) (code : Nat) (reason : String) :
    GWState × List GWEffect :=
  let st1 : GWState :=
    { st with dialTimer := false,
              ws := match st.ws with | some _ => some WsPhase.closed | none => none }
  let wasConnected := st1.connected
  let st2 : GWState := { st1 with connected := false }
  let (st3, effs1) :=
    if st2.connectWaiting then
      ({ st2 with connectWaiting := false },
       [GWEffect.connectRejected
          (GWError.connectionClosed ("Connection closed: " ++ jsOrStr reason ("code " ++ natToDecimal code)))])
    else (st2, ([] : List GWEffect))
  let (st4, effs2) :=
    GatewayClient.flushPending st3
      (GWError.connectionClosed ("Connection closed: " ++ jsOrStr reason (natToDecimal code)))
  let effs3 := [GWEffect.emitted "disconnected"]
  if wasConnected && st4.shouldReconnect then
    let (st5, effs4) := GatewayClient.scheduleReconnect st4
    (st5, effs1 ++ effs2 ++ effs3 ++ effs4)
  else (st4, effs1 ++ effs2 ++ effs3)

/-- The `open` listener: clear the 15-second dial timer and wait for the
challenge (no frame is sent). -/
def GatewayClient.onOpen (st : GWState) : GWState :=
  { st with ws := some WsPhase.opened, dialTimer := false }

/-- The `error` listener: clear the dial timer and reject a still-waiting
`connect()` promise. -/
def GatewayClient.onError (st : GWState) : GWState × List GWEffect :=
  let st1 : GWState := { st with dialTimer := false }
  if st1.connectWaiting then
    ({ st1 with connectWaiting := false }, [GWEffect.connectRejected GWError.wsError])
  else (st1, [])

/-- The 15-second timer armed in `_connect`: if it is still live (it is
cleared by the `open`, `close` and `error` listeners), reject the
`connect()` promise with `Connection timeout` and close the socket. -/
def GatewayClient.onDialTimeout (st : GWState) : GWState × List GWEffect :=
  if st.dialTimer then
    ({ st with dialTimer := false, connectWaiting := false },
     [GWEffect.connectRejected GWError.connectionTimeout, GWEffect.wsClose])
  else (st, [])

/-- The `auth` block of `sendConnect`: start from an empty object, add each
secret only when truthy, and keep the object only if it gained a key. -/
def GatewayClient.connectAuth (cfg : GatewayConfig) : Option ConnectAuth :=
  let auth : ConnectAuth := { token := none, password := none }
  let auth := if jsTruthy cfg.token then { auth with token := cfg.token } else auth
  let auth := if jsTruthy cfg.password then { auth with password := cfg.password } else auth
  if auth.token.isSome || auth.password.isSome then some auth else none

/-- The `params` object of the `connect` request built by `sendConnect`. -/
def GatewayClient.connectParams (cfg : GatewayConfig) (now : Nat) : ConnectParams :=
  { auth := GatewayClient.connectAuth cfg
    role := "operator"
    scopes := ["operator.read", "operator.write", "operator.admin",
               "operator.approvals", "operator.pairing"]
    permissions := [("operator.admin", true), ("operator.approvals", true),
                    ("operator.pairing", true)]
    client := { id := "openclaw-control-ui", version := "2.0.0", platform := "web",
                mode := "webchat", instanceId := "chat_" ++ natToDecimal now }
    minProtocol := 3
    maxProtocol := 3 }

/-- Method `sendConnect`: allocate a fresh id, remember it in `connectId`, and send
the `connect` request frame (the challenge payload itself is ignored). -/
def GatewayClient.sendConnect (cfg : GatewayConfig) (now : Nat) (st : GWState) :
    GWState × List GWEffect :=
  ({ st with reqCounter := st.reqCounter + 1,
             connectId := some (nextId (st.reqCounter + 1) now) },
   [GWEffect.sentFrame (Frame.req (nextId (st.reqCounter + 1) now) "connect"
      (ReqParams.connect (GatewayClient.connectParams cfg now)))])

/-- The test `this.connectId && msg.id === this.connectId` (an empty-string id would
be falsy in JS). -/
def connectIdMatches (connectId : Option String) (id : String) : Bool :=
  match connectId with
  | some cid => cid != "" && cid == id
  | none => false

/-- JS `msg.error?.message || default`. -/
def errMessageOr (deflt : String) : Option String → String
  | some m => if m == "" then deflt else m
  | none => deflt

/-- Method `handleMessage`: dispatch a parsed inbound frame — the
`connect.challenge` event triggers `sendConnect`; a response either settles
the in-flight `connect()` or the matching pending request (a response with
no matching slot is dropped); other events are fanned out to subscriber
channels. -/
def GatewayClient.handleMessage (cfg : GatewayConfig) (now : Nat) (st : GWState) :
    WireMsg → GWState × List GWEffect
  | WireMsg.parseError => (st, [])
  | WireMsg.event name _payload =>
    if name == "connect.challenge" then
      GatewayClient.sendConnect cfg now st
    else
      (st, [GWEffect.emitted "event"]
        ++ (if name == "chat" then [GWEffect.emitted "chat.stream"] else [])
        ++ (if name == "exec.approval.requested" then [GWEffect.emitted "exec.approval"] else []))
  | WireMsg.res id ok err =>
    if connectIdMatches st.connectId id then
      let st1 : GWState := { st with connectId := none }
      if ok != some false && err == none then
        ({ st1 with connected := true, reconnectAttempts := 0, connectWaiting := false },
         [GWEffect.emitted "connected"]
           ++ (if st.connectWaiting then [GWEffect.connectResolved] else []))
      else
        ({ st1 with connectWaiting := false },
         if st.connectWaiting then
           [GWEffect.connectRejected (GWError.upstream (errMessageOr "Connect rejected" err))]
         else [])
    else
      match pendingLookup st.pending id with
      | some _ =>
        let st1 : GWState := { st with pending := pendingDelete st.pending id }
        if ok != some false && err == none then (st1, [GWEffect.resolved id])
        else (st1, [GWEffect.rejected id (GWError.upstream (errMessageOr "Request failed" err))])
      | none => (st, [])

/-- Method `request`: fail with `Not connected` unless the socket exists and its
readyState is OPEN; otherwise allocate a fresh id, register the pending slot
with its deadline (`timeoutMs`, defaulting to 30000), and send the frame. -/
def GatewayClient.request (st : GWState) (method : String) (params : String)
    (timeoutMs : Option Nat) (now : Nat) : Except GWError (GWState × List GWEffect) :=
  match st.ws with
  | some WsPhase.opened =>
    let t := timeoutMs.getD GatewayClient.defaultTimeoutMs
    let id := nextId (st.reqCounter + 1) now
    Except.ok ({ st with reqCounter := st.reqCounter + 1, pending := (id, t) :: st.pending },
      [GWEffect.sentFrame (Frame.req id method (ReqParams.other params))])
  | _ => Except.error GWError.notConnected

/-- The per-request timer callback: if the slot is still pending, remove it
and reject with `Request timeout`; otherwise do nothing. -/
def GatewayClient.onRequestTimeout (st : GWState) (id : String) : GWState × List GWEffect :=
  if (pendingLookup st.pending id).isSome then
    ({ st with pending := pendingDelete st.pending id }, [GWEffect.rejected id GWError.timeout])
  else (st, [])

/-- Method `_connect`: create a fresh socket, register the promise callbacks, and
arm the 15-second dial timer. -/
def GatewayClient._connect (st : GWState) : GWState :=
  { st with ws := some WsPhase.connecting, connectWaiting := true, dialTimer := true }

/-- Method `connect()`: enable reconnection, reset the attempt counter, dial. -/
def GatewayClient.connect (st : GWState) : GWState :=
  GatewayClient._connect { st with shouldReconnect := true, reconnectAttempts := 0 }

/-- The reconnect timer firing: dial again (a dial failure surfaces later
through the socket listeners). -/
def GatewayClient.onReconnectFire (st : GWState) : GWState × List GWEffect :=
  (GatewayClient._connect { st with reconnectTimer := none }, [])

/-- Method `disconnect()`: disable reconnection, cancel the reconnect timer, close
and drop the socket, and flush pending requests with `Disconnected`. -/
def GatewayClient.disconnect (st : GWState) : GWState × List GWEffect :=
  let st1 : GWState := { st with shouldReconnect := false, reconnectTimer := none }
  let effs0 := if st1.ws.isSome then [GWEffect.wsClose] else ([] : List GWEffect)
  let st2 : GWState := { st1 with ws := none, connected := false, connectWaiting := false }
  let (st3, effs1) := GatewayClient.flushPending st2 GWError.disconnected
  (st3, effs0 ++ effs1)

/-- Environment events driving the client: socket lifecycle events, parsed
inbound messages, and timer firings. -/
inductive GWEvent
  | sockOpen
  | sockClosed (code : Nat) (reason : String)
  | sockError
  | message (m : WireMsg)
  | dialTimeout
  | requestTimeout (id : String)
  | reconnectTimerFire
deriving DecidableEq

/-- One environment step of the gateway client. -/
def GatewayClient.step (cfg : GatewayConfig) (now : Nat) (st : GWState) :
    GWEvent → GWState × List GWEffect
  | GWEvent.sockOpen => (GatewayClient.onOpen st, [])
  | GWEvent.sockClosed code reason => GatewayClient.onClose st code reason
  | GWEvent.sockError => GatewayClient.onError st
  | GWEvent.message m => GatewayClient.handleMessage cfg now st m
  | GWEvent.dialTimeout => GatewayClient.onDialTimeout st
  | GWEvent.requestTimeout id => GatewayClient.onRequestTimeout st id
  | GWEvent.reconnectTimerFire => GatewayClient.onReconnectFire st

/- ### Downstream chat sockets (ChatSocket / FederatedChatSocket)

From the backend API client module: browser-side WebSocket clients for the
`/ws/chat/{gateway_id}` and `/ws/chat/federated` endpoints, with a
30-second ping / 10-second pong heartbeat and the same 10-attempt
exponential backoff ladder.  `pingInterval` / `pongTimeout` model the live
`setInterval` / `setTimeout` handles. -/

inductive CSError
  | notConnected
deriving DecidableEq

inductive CSEffect
  | dialed (path : String)
  | sentPing
  | sentChat (sessionKey : String) (message : String) (advancedReasoning : Option Bool)
  | sentSetReasoning (sessionKey : String) (enabled : Bool)
  | sentAbort (sessionKey : String)
  | sentFedChat (message : String) (targets : List (String × String)) (broadcast : Bool)
  | sentFedAbort (targets : List (String × String))
  | emitted (event : String)
  | timerSet (delayMs : Nat)
  | wsClose
deriving DecidableEq

/-- Mutable fields of `ChatSocket`. -/
structure CSState where
  ws : Option WsPhase
  gwId : Option String
  reconnectTimer : Option Nat
  reconnectAttempts : Nat
  shouldReconnect : Bool
  pingInterval : Bool
  pongTimeout : Bool
deriving DecidableEq

def ChatSocket.maxReconnectAttempts : Nat := 10

def ChatSocket.PING_INTERVAL : Nat := 30000

def ChatSocket.PONG_TIMEOUT : Nat := 10000

/-- Method `stopHeartbeat`: clear both heartbeat timers. -/
def ChatSocket.stopHeartbeat (st : CSState) : CSState :=
  { st with pingInterval := false, pongTimeout := false }

/-- Method `startHeartbeat`: stop any previous timers and arm the ping interval. -/
def ChatSocket.startHeartbeat (st : CSState) : CSState :=
  { ChatSocket.stopHeartbeat st with pingInterval := true }

/-- Method `scheduleReconnect`: on exhaustion emit `reconnect_failed` and disable
reconnection; otherwise back off `min(1000 * 2 ^ attempts, 30000)` ms,
increment the counter, emit `reconnecting`, arm the timer. -/
def ChatSocket.scheduleReconnect (st : CSState) : CSState × List CSEffect :=
  if ChatSocket.maxReconnectAttempts ≤ st.reconnectAttempts then
    ({ st with shouldReconnect := false }, [CSEffect.emitted "reconnect_failed"])
  else
    let delay := min (1000 * 2 ^ st.reconnectAttempts) 30000
    ({ st with reconnectAttempts := st.reconnectAttempts + 1, reconnectTimer := some delay },
     [CSEffect.emitted "reconnecting", CSEffect.timerSet delay])

/-- Method `_connect`: bail out when no gateway id is bound; close any existing
socket; construct the WebSocket (`dialOk` models whether the constructor
throws — on failure, schedule a reconnect). -/
def ChatSocket._connect (st : CSState) (dialOk : Bool) : CSState × List CSEffect :=
  match st.gwId with
  | none => (st, [])
  | some g =>
    let (st1, effs1) :=
      if st.ws.isSome then ({ st with ws := none }, [CSEffect.wsClose]) else (st, [])
    if dialOk then
      ({ st1 with ws := some WsPhase.connecting }, effs1 ++ [CSEffect.dialed g])
    else
      let (st2, effs2) := ChatSocket.scheduleReconnect st1
      (st2, effs1 ++ effs2)

/-- Method `connect(gwId)`: disconnect, bind the gateway id, enable reconnection,
reset the attempt counter, dial. -/
def ChatSocket.connect (st : CSState) (gwId : String) (dialOk : Bool) :
    CSState × List CSEffect :=
  let st1 : CSState :=
    { ws := none, gwId := some gwId, reconnectTimer := none,
      reconnectAttempts := 0, shouldReconnect := true,
      pingInterval := false, pongTimeout := false }
  ChatSocket._connect st1 dialOk

/-- The `open` listener: reset the attempt counter, start the heartbeat,
emit `open`. -/
def ChatSocket.onOpen (st : CSState) : CSState × List CSEffect :=
  (ChatSocket.startHeartbeat { st with ws := some WsPhase.opened, reconnectAttempts := 0 },
   [CSEffect.emitted "open"])

/-- The `close` listener: stop the heartbeat, emit `close`, and reconnect
only when reconnection is enabled and the close was not a normal (1000)
closure. -/
def ChatSocket.onClose (st : CSState) (code : Nat) (_reason : String) :
    CSState × List CSEffect :=
  let st1 : CSState :=
    ChatSocket.stopHeartbeat
      { st with ws := match st.ws with | some _ => some WsPhase.closed | none => none }
  let effs1 := [CSEffect.emitted "close"]
  if st1.shouldReconnect && code != 1000 then
    let (st2, effs2) := ChatSocket.scheduleReconnect st1
    (st2, effs1 ++ effs2)
  else (st1, effs1)

/-- The ping interval firing: when the socket is open, send a ping and arm
the pong timeout. -/
def ChatSocket.heartbeatTick (st : CSState) : CSState × List CSEffect :=
  if st.pingInterval then
    match st.ws with
    | some WsPhase.opened => ({ st with pongTimeout := true }, [CSEffect.sentPing])
    | _ => (st, [])
  else (st, [])

/-- The pong timeout firing: close the apparently dead socket. -/
def ChatSocket.onPongTimeout (st : CSState) : CSState × List CSEffect :=
  if st.pongTimeout then
    ({ st with pongTimeout := false }, if st.ws.isSome then [CSEffect.wsClose] else [])
  else (st, [])

/-- The reconnect timer firing: dial again only if reconnection is still
enabled. -/
def ChatSocket.onReconnectFire (st : CSState) (dialOk : Bool) : CSState × List CSEffect :=
  let st1 : CSState := { st with reconnectTimer := none }
  if st1.shouldReconnect then ChatSocket._connect st1 dialOk else (st1, [])

/-- Method `send(sessionKey, message, advancedReasoning?)`: throw unless the socket
is open; otherwise send the chat frame. -/
def ChatSocket.send (st : CSState) (sessionKey : String) (message : String)
    (advancedReasoning : Option Bool) : Except CSError (List CSEffect) :=
  match st.ws with
  | some WsPhase.opened =>
    Except.ok [CSEffect.sentChat sessionKey message advancedReasoning]
  | _ => Except.error CSError.notConnected

/-- Method `disconnect()`: disable reconnection, stop the heartbeat, cancel the
reconnect timer, close and drop the socket, unbind the gateway id. -/
def ChatSocket.disconnect (st : CSState) : CSState × List CSEffect :=
  let st1 : CSState := ChatSocket.stopHeartbeat { st with shouldReconnect := false }
  let st2 : CSState := { st1 with reconnectTimer := none }
  let effs := if st2.ws.isSome then [CSEffect.wsClose] else ([] : List CSEffect)
  ({ st2 with ws := none, gwId := none }, effs)

/-- Mutable fields of `FederatedChatSocket` (no per-connection gateway
binding). -/
structure FCSState where
  ws : Option WsPhase
  reconnectTimer : Option Nat
  reconnectAttempts : Nat
  shouldReconnect : Bool
  pingInterval : Bool
  pongTimeout : Bool
deriving DecidableEq

def FederatedChatSocket.maxReconnectAttempts : Nat := 10

def FederatedChatSocket.stopHeartbeat (st : FCSState) : FCSState :=
  { st with pingInterval := false, pongTimeout := false }

def FederatedChatSocket.startHeartbeat (st : FCSState) : FCSState :=
  { FederatedChatSocket.stopHeartbeat st with pingInterval := true }

def FederatedChatSocket.scheduleReconnect (st : FCSState) : FCSState × List CSEffect :=
  if FederatedChatSocket.maxReconnectAttempts ≤ st.reconnectAttempts then
    ({ st with shouldReconnect := false }, [CSEffect.emitted "reconnect_failed"])
  else
    let delay := min (1000 * 2 ^ st.reconnectAttempts) 30000
    ({ st with reconnectAttempts := st.reconnectAttempts + 1, reconnectTimer := some delay },
     [CSEffect.emitted "reconnecting", CSEffect.timerSet delay])

def FederatedChatSocket._connect (st : FCSState) (dialOk : Bool) : FCSState × List CSEffect :=
  let (st1, effs1) :=
    if st.ws.isSome then ({ st with ws := none }, [CSEffect.wsClose]) else (st, [])
  if dialOk then
    ({ st1 with ws := some WsPhase.connecting }, effs1 ++ [CSEffect.dialed "federated"])
  else
    let (st2, effs2) := FederatedChatSocket.scheduleReconnect st1
    (st2, effs1 ++ effs2)

def FederatedChatSocket.onClose (st : FCSState) (code : Nat) (_reason : String) :
    FCSState × List CSEffect :=
  let st1 : FCSState :=
    FederatedChatSocket.stopHeartbeat
      { st with ws := match st.ws with | some _ => some WsPhase.closed | none => none }
  let effs1 := [CSEffect.emitted "close"]
  if st1.shouldReconnect && code != 1000 then
    let (st2, effs2) := FederatedChatSocket.scheduleReconnect st1
    (st2, effs1 ++ effs2)
  else (st1, effs1)

def FederatedChatSocket.heartbeatTick (st : FCSState) : FCSState × List CSEffect :=
  if st.pingInterval then
    match st.ws with
    | some WsPhase.opened => ({ st with pongTimeout := true }, [CSEffect.sentPing])
    | _ => (st, [])
  else (st, [])

def FederatedChatSocket.onReconnectFire (st : FCSState) (dialOk : Bool) :
    FCSState × List CSEffect :=
  let st1 : FCSState := { st with reconnectTimer := none }
  if st1.shouldReconnect then FederatedChatSocket._connect st1 dialOk else (st1, [])

def FederatedChatSocket.send (st : FCSState) (message : String)
    (targets : List (String × String)) (broadcast : Bool) : Except CSError (List CSEffect) :=
  match st.ws with
  | some WsPhase.opened => Except.ok [CSEffect.sentFedChat message targets broadcast]
  | _ => Except.error CSError.notConnected

def FederatedChatSocket.disconnect (st : FCSState) : FCSState × List CSEffect :=
  let st1 : FCSState := FederatedChatSocket.stopHeartbeat { st with shouldReconnect := false }
  let st2 : FCSState := { st1 with reconnectTimer := none }
  let effs := if st2.ws.isSome then [CSEffect.wsClose] else ([] : List CSEffect)
  ({ st2 with ws := none }, effs)

/- ### Helper lemmas -/

lemma dropWhile_head?_not {α : Type} (p : α → Bool) :
    ∀ (l : List α) (c : α), (l.dropWhile p).head? = some c → p c = false := by
  intro l
  induction l with
  | nil => intro c h; simp [List.dropWhile] at h
  | cons a as ih =>
    intro c h
    cases hp : p a with
    | true => rw [List.dropWhile_cons, if_pos (by simp [hp])] at h; exact ih c h
    | false =>
      rw [List.dropWhile_cons, if_neg (by simp [hp])] at h
      simp at h
      exact h ▸ hp

lemma dropWhile_eq_self_of_head {α : Type} (p : α → Bool) (l : List α)
    (h : ∀ c, l.head? = some c → p c = false) : l.dropWhile p = l := by
  cases l with
  | nil => rfl
  | cons a as =>
    rw [List.dropWhile_cons, if_neg]
    simp [h a rfl]

lemma dropWhile_idem {α : Type} (p : α → Bool) (l : List α) :
    (l.dropWhile p).dropWhile p = l.dropWhile p :=
  dropWhile_eq_self_of_head p _ (dropWhile_head?_not p l)

lemma dropWhile_suffix {α : Type} (p : α → Bool) (l : List α) : l.dropWhile p <:+ l := by
  induction l with
  | nil => exact List.suffix_refl _
  | cons a as ih =>
    rw [List.dropWhile_cons]
    by_cases hp : p a
    · simp only [hp, if_pos]
      exact ih.trans (List.suffix_cons a as)
    · simp only [hp, if_neg]
      exact List.suffix_refl _

lemma prefix_head {α : Type} {u v : List α} (h : u <+: v) (c : α)
    (hc : u.head? = some c) : v.head? = some c := by
  obtain ⟨t, ht⟩ := h
  cases u with
  | nil => simp at hc
  | cons a as => simp at hc; subst ht; simp [hc]

lemma jsTrim_idem (l : List Char) : jsTrim (jsTrim l) = jsTrim l := by
  have key : ∀ m : List Char, (jsTrim m).dropWhile jsSpace = jsTrim m → jsTrim (jsTrim m) = jsTrim m := by
    intro m hdw
    show ((((jsTrim m).dropWhile jsSpace).reverse.dropWhile jsSpace)).reverse = jsTrim m
    rw [hdw]
    show (((((m.dropWhile jsSpace).reverse.dropWhile jsSpace).reverse).reverse).dropWhile jsSpace).reverse
        = jsTrim m
    rw [List.reverse_reverse, dropWhile_idem]
    rfl
  apply key
  apply dropWhile_eq_self_of_head
  intro c hc
  have hpre : jsTrim l <+: l.dropWhile jsSpace := by
    show ((l.dropWhile jsSpace).reverse.dropWhile jsSpace).reverse <+: l.dropWhile jsSpace
    have hsuf := dropWhile_suffix jsSpace (l.dropWhile jsSpace).reverse
    have hsuf2 : (((l.dropWhile jsSpace).reverse.dropWhile jsSpace).reverse).reverse
        <:+ (l.dropWhile jsSpace).reverse := by simpa using hsuf
    exact List.reverse_suffix.mp hsuf2
  exact dropWhile_head?_not jsSpace l c (prefix_head hpre c hc)

lemma digitChar_inj : ∀ d1, d1 < 10 → ∀ d2, d2 < 10 → digitChar d1 = digitChar d2 → d1 = d2 := by
  decide

lemma digitChar_ne_underscore : ∀ d, d < 10 → digitChar d ≠ '_' := by decide

lemma decimalDigitsCore_eq : ∀ (fuel n : Nat), n ≤ fuel →
    decimalDigitsCore fuel n = ((Nat.digits 10 n).map digitChar).reverse := by
  intro fuel
  induction fuel with
  | zero =>
    intro n h
    have hn : n = 0 := Nat.le_zero.mp h
    subst hn
    simp [decimalDigitsCore]
  | succ f ih =>
    intro n h
    cases n with
    | zero => simp [decimalDigitsCore]
    | succ m =>
      have hdiv : (m + 1) / 10 ≤ f := by
        have := Nat.div_lt_self (Nat.succ_pos m) (by norm_num : 1 < 10)
        omega
      rw [show decimalDigitsCore (f + 1) (m + 1)
            = decimalDigitsCore f ((m + 1) / 10) ++ [digitChar ((m + 1) % 10)] from rfl]
      rw [Nat.digits_def' (by norm_num : 1 < 10) (Nat.succ_pos m)]
      rw [ih _ hdiv]
      simp

lemma map_digitChar_inj : ∀ l1 l2 : List Nat, (∀ d ∈ l1, d < 10) → (∀ d ∈ l2, d < 10) →
    l1.map digitChar = l2.map digitChar → l1 = l2 := by
  intro l1
  induction l1 with
  | nil => intro l2 _ _ h; cases l2 with
    | nil => rfl
    | cons b bs => simp at h
  | cons a as ih =>
    intro l2 h1 h2 h
    cases l2 with
    | nil => simp at h
    | cons b bs =>
      simp at h
      obtain ⟨hab, htail⟩ := h
      have ha : a < 10 := h1 a (by simp)
      have hb : b < 10 := h2 b (by simp)
      have : a = b := digitChar_inj a ha b hb hab
      subst this
      have : as = bs := ih bs (fun d hd => h1 d (by simp [hd])) (fun d hd => h2 d (by simp [hd])) htail
      simp [this]

lemma decimalDigits_inj (n m : Nat) (h : decimalDigits n = decimalDigits m) : n = m := by
  have digitsOfEq : ∀ k, k ≠ 0 → decimalDigits k = ((Nat.digits 10 k).map digitChar).reverse := by
    intro k hk
    unfold decimalDigits
    rw [if_neg hk, decimalDigitsCore_eq (k + 1) k (Nat.le_succ k)]
  have zeroNe : ∀ k, k ≠ 0 → decimalDigits k ≠ ['0'] := by
    intro k hk hcontra
    rw [digitsOfEq k hk] at hcontra
    have hmap : (Nat.digits 10 k).map digitChar = ['0'] := by
      have := congrArg List.reverse hcontra
      simpa using this
    cases hd : Nat.digits 10 k with
    | nil => rw [hd] at hmap; simp at hmap
    | cons d ds =>
      rw [hd] at hmap
      cases ds with
      | cons d2 ds2 => simp at hmap
      | nil =>
        simp at hmap
        have hdlt : d < 10 :=
          Nat.digits_lt_base (by norm_num) (by rw [hd]; exact List.mem_singleton.mpr rfl)
        have hd0 : d = 0 := digitChar_inj d hdlt 0 (by norm_num) hmap
        have := Nat.ofDigits_digits 10 k
        rw [hd, hd0] at this
        simp [Nat.ofDigits] at this
        exact hk this.symm
  by_cases hn : n = 0 <;> by_cases hm : m = 0
  · rw [hn, hm]
  · exfalso
    rw [hn] at h
    exact zeroNe m hm (by rw [← h]; rfl)
  · exfalso
    rw [hm] at h
    exact zeroNe n hn (by rw [h]; rfl)
  · rw [digitsOfEq n hn, digitsOfEq m hm] at h
    have hmap : (Nat.digits 10 n).map digitChar = (Nat.digits 10 m).map digitChar := by
      have := congrArg List.reverse h
      simpa using this
    have hdig : Nat.digits 10 n = Nat.digits 10 m :=
      map_digitChar_inj _ _
        (fun d hd => Nat.digits_lt_base (by norm_num) hd)
        (fun d hd => Nat.digits_lt_base (by norm_num) hd) hmap
    have h1 := Nat.ofDigits_digits 10 n
    have h2 := Nat.ofDigits_digits 10 m
    rw [← h1, ← h2, hdig]

lemma underscore_not_mem_decimalDigits (n : Nat) : '_' ∉ decimalDigits n := by
  unfold decimalDigits
  by_cases hn : n = 0
  · rw [if_pos hn]; decide
  · rw [if_neg hn, decimalDigitsCore_eq (n + 1) n (Nat.le_succ n)]
    intro hmem
    rw [List.mem_reverse, List.mem_map] at hmem
    obtain ⟨d, hd, hEq⟩ := hmem
    exact digitChar_ne_underscore d (Nat.digits_lt_base (by norm_num) hd) hEq

lemma append_underscore_inj : ∀ (a c b d : List Char), '_' ∉ a → '_' ∉ c →
    a ++ '_' :: b = c ++ '_' :: d → a = c ∧ b = d := by
  intro a
  induction a with
  | nil =>
    intro c b d _ hc h
    cases c with
    | nil => simp at h; exact ⟨rfl, h⟩
    | cons y ys =>
      simp at h
      exact absurd (h.1 ▸ List.mem_cons_self y ys) (h.1 ▸ hc)
  | cons x xs ih =>
    intro c b d ha hc h
    cases c with
    | nil =>
      simp at h
      exact absurd (h.1 ▸ List.mem_cons_self x xs) (h.1 ▸ ha)
    | cons y ys =>
      simp at h
      obtain ⟨hxy, htail⟩ := h
      have hxs : '_' ∉ xs := fun hmem => ha (List.mem_cons_of_mem x hmem)
      have hys : '_' ∉ ys := fun hmem => hc (List.mem_cons_of_mem y hmem)
      obtain ⟨h1, h2⟩ := ih ys b d hxs hys htail
      exact ⟨by rw [hxy, h1], h2⟩

lemma string_data_append (s t : String) : (s ++ t).data = s.data ++ t.data := rfl

lemma pendingLookup_eq_none_of_not_mem (l : List (String × Nat)) (id : String)
    (h : id ∉ l.map Prod.fst) : pendingLookup l id = none := by
  induction l with
  | nil => rfl
  | cons e rest ih =>
    rw [List.map_cons, List.mem_cons] at h
    push_neg at h
    have hne : (e.1 == id) = false := by
      simp only [beq_eq_false_iff_ne]
      exact fun hEq => h.1 hEq.symm
    rw [pendingLookup, hne]
    simp only [Bool.false_eq_true, if_false]
    exact ih h.2

lemma pendingLookup_delete_self (l : List (String × Nat)) (id : String)
    (h : (l.map Prod.fst).Nodup) : pendingLookup (pendingDelete l id) id = none := by
  induction l with
  | nil => rfl
  | cons e rest ih =>
    rw [List.map_cons, List.nodup_cons] at h
    rw [pendingDelete]
    by_cases he : e.1 = id
    · rw [if_pos (by simp [he])]
      exact pendingLookup_eq_none_of_not_mem rest id (he ▸ h.1)
    · have hne : (e.1 == id) = false := by
        simp only [beq_eq_false_iff_ne]
        exact he
      rw [hne]
      simp only [Bool.false_eq_true, if_false]
      rw [pendingLookup, hne]
      simp only [Bool.false_eq_true, if_false]
      exact ih h.2

/- ### Claim theorems -/

/-- C1 counterexample: on the example input given in the spec, `stripThinking`
returns `"deliberatingAnswer: 42"` — removing the tag markers concatenates
the enclosed text directly with the following text, so the claimed result
`"deliberating Answer: 42"` (with an inserted space) is not produced. -/
theorem C1_strip_example_counterexample :
    ¬ stripThinking "<think>deliberating</think>Answer: 42" = "deliberating Answer: 42" := by
  decide

/-- C1 (amended): `stripThinking` removes exactly the opening and closing
tag markers of the four families (case-insensitively, attributes included),
preserves the enclosed text, and trims surrounding whitespace; applied to
`"<think>deliberating</think>Answer: 42"` it returns
`"deliberatingAnswer: 42"` — no space is inserted where a marker was
removed. -/
theorem C1_strip_example_amended :
    stripThinking "<think>deliberating</think>Answer: 42" = "deliberatingAnswer: 42"
    ∧ stripThinking "  <THINKING level=2>kept text</Thought>  " = "kept text"
    ∧ stripThinking " <antthinking>x</antthinking>y " = "xy"
    ∧ stripThinking "no tags here" = "no tags here" := by
  refine ⟨by decide, by decide, by decide, by decide⟩

/-- C3 counterexample: the Thinking Filter is not idempotent.  On
`"<th<think>ink>x"` one application removes the inner `<think>` and the
remaining text re-forms a `<think>` marker (the JS global replace does not
rescan replaced regions), so a second application removes more. -/
theorem C3_not_idempotent_counterexample :
    ¬ stripThinking (stripThinking "<th<think>ink>x") = stripThinking "<th<think>ink>x" := by
  decide

/-- C3 (amended): applying the Thinking Filter twice equals applying it
once on every input whose filtered form contains no further tag-marker
match (equivalently: whenever the first removal pass does not re-form a
marker out of adjacent fragments); in general a second application can
strip markers created by the first. -/
theorem C3_idempotent_when_no_reformed_tags (s : String)
    (h : stripScan (stripThinking s).data = (stripThinking s).data) :
    stripThinking (stripThinking s) = stripThinking s := by
  have hdata : (stripThinking s).data = jsTrim (stripScan s.data) := rfl
  show (⟨jsTrim (stripScan (stripThinking s).data)⟩ : String) = stripThinking s
  rw [h, hdata, jsTrim_idem]
  rfl

/-- C3 witness: a concrete input satisfying the amended hypothesis. -/
theorem C3_idempotent_witness :
    stripScan (stripThinking "<think>a</think> b").data = (stripThinking "<think>a</think> b").data
    ∧ stripThinking (stripThinking "<think>a</think> b") = stripThinking "<think>a</think> b" :=
  ⟨by decide, C3_idempotent_when_no_reformed_tags "<think>a</think> b" (by decide)⟩

/-- C8: correlation ids from `nextId` never collide across calls: the
module-level counter is strictly increasing (it is incremented on every
call, and survives reconnects of the same connection), and two calls with
distinct counter values yield distinct id strings regardless of the
timestamps, because the decimal counter rendering is the underscore-free
segment between the leading `r` and the first `_`. -/
theorem C8_nextId_no_collision (n1 t1 n2 t2 : Nat) (h : n1 ≠ n2) :
    nextId n1 t1 ≠ nextId n2 t2 := by
  intro hEq
  apply h
  have dataEq : ∀ n t : Nat,
      (nextId n t).data = 'r' :: (decimalDigits n ++ '_' :: decimalDigits t) := by
    intro n t
    show (("r" ++ natToDecimal n ++ "_") ++ natToDecimal t).data = _
    rw [string_data_append, string_data_append, string_data_append]
    have hr : "r".data = ['r'] := rfl
    have hu : "_".data = ['_'] := rfl
    have hn : (natToDecimal n).data = decimalDigits n := rfl
    have ht : (natToDecimal t).data = decimalDigits t := rfl
    rw [hr, hu, hn, ht]
    simp
  have hdata : decimalDigits n1 ++ '_' :: decimalDigits t1
      = decimalDigits n2 ++ '_' :: decimalDigits t2 := by
    have hd := congrArg String.data hEq
    rw [dataEq n1 t1, dataEq n2 t2] at hd
    exact List.cons_injective hd
  exact decimalDigits_inj n1 n2
    (append_underscore_inj _ _ _ _ (underscore_not_mem_decimalDigits n1)
      (underscore_not_mem_decimalDigits n2) hdata).1

/-- C8 witness: two concrete calls (even with identical timestamps, and
with counters whose decimal forms are prefixes of one another) give
distinct ids. -/
theorem C8_nextId_witness : nextId 1 100 ≠ nextId 11 100 ∧ (1 : Nat) ≠ 11 :=
  ⟨C8_nextId_no_collision 1 100 11 100 (by decide), by decide⟩

/-- C2: for attempt counter `n < 10` the scheduled delay is exactly
`min(1000 * 2 ^ n, 30000)` ms and the counter is incremented; once 10
attempts are exhausted, `reconnect_failed` is emitted and no timer is
armed (so no further attempt happens without an explicit reconnect call) —
for both the upstream `GatewayClient` and the downstream `ChatSocket`. -/
theorem C2_backoff_ladder (st : GWState) (cst : CSState) :
    (st.reconnectAttempts < 10 →
      GatewayClient.scheduleReconnect st =
        ({ st with reconnectAttempts := st.reconnectAttempts + 1,
                   reconnectTimer := some (min (1000 * 2 ^ st.reconnectAttempts) 30000) },
         [GWEffect.emitted "reconnecting",
          GWEffect.timerSet (min (1000 * 2 ^ st.reconnectAttempts) 30000)]))
    ∧ (10 ≤ st.reconnectAttempts →
      GatewayClient.scheduleReconnect st = (st, [GWEffect.emitted "reconnect_failed"]))
    ∧ (cst.reconnectAttempts < 10 →
      ChatSocket.scheduleReconnect cst =
        ({ cst with reconnectAttempts := cst.reconnectAttempts + 1,
                    reconnectTimer := some (min (1000 * 2 ^ cst.reconnectAttempts) 30000) },
         [CSEffect.emitted "reconnecting",
          CSEffect.timerSet (min (1000 * 2 ^ cst.reconnectAttempts) 30000)]))
    ∧ (10 ≤ cst.reconnectAttempts →
      ChatSocket.scheduleReconnect cst =
        ({ cst with shouldReconnect := false }, [CSEffect.emitted "reconnect_failed"])) := by
  refine ⟨fun h => ?_, fun h => ?_, fun h => ?_, fun h => ?_⟩
  · rw [GatewayClient.scheduleReconnect,
      if_neg (by rw [GatewayClient.maxReconnectAttempts]; omega)]
  · rw [GatewayClient.scheduleReconnect,
      if_pos (by rw [GatewayClient.maxReconnectAttempts]; omega)]
  · rw [ChatSocket.scheduleReconnect,
      if_neg (by rw [ChatSocket.maxReconnectAttempts]; omega)]
  · rw [ChatSocket.scheduleReconnect,
      if_pos (by rw [ChatSocket.maxReconnectAttempts]; omega)]

def gwStA : GWState :=
  { ws := some WsPhase.closed, pending := [], connected := false, reconnectTimer := none,
    reconnectAttempts := 3, shouldReconnect := true, connectWaiting := false,
    connectId := none, dialTimer := false, reqCounter := 0 }

def csStA : CSState :=
  { ws := some WsPhase.closed, gwId := some "g1", reconnectTimer := none,
    reconnectAttempts := 10, shouldReconnect := true, pingInterval := false,
    pongTimeout := false }

/-- C2 witness: attempt 3 backs off 8000 ms; an exhausted downstream socket
emits `reconnect_failed` without arming a timer. -/
theorem C2_backoff_ladder_witness :
    GatewayClient.scheduleReconnect gwStA =
      ({ gwStA with reconnectAttempts := gwStA.reconnectAttempts + 1,
                    reconnectTimer := some (min (1000 * 2 ^ gwStA.reconnectAttempts) 30000) },
       [GWEffect.emitted "reconnecting",
        GWEffect.timerSet (min (1000 * 2 ^ gwStA.reconnectAttempts) 30000)])
    ∧ ChatSocket.scheduleReconnect csStA =
      ({ csStA with shouldReconnect := false }, [CSEffect.emitted "reconnect_failed"]) :=
  ⟨(C2_backoff_ladder gwStA csStA).1 (by decide),
   (C2_backoff_ladder gwStA csStA).2.2.2 (by decide)⟩

lemma jsTruthy_isSome {o : Option String} (h : jsTruthy o = true) : o.isSome = true := by
  cases o with
  | none => simp [jsTruthy] at h
  | some s => rfl

/-- C9: the `connect` request omits the `auth` field when neither secret is
configured (truthy), contains exactly the configured token and/or password
otherwise, and always carries role `operator`, the five operator scopes,
and protocol range [3, 3]. -/
theorem C9_connect_request_contents (cfg : GatewayConfig) (now : Nat) :
    ((jsTruthy cfg.token = false ∧ jsTruthy cfg.password = false) →
      (GatewayClient.connectParams cfg now).auth = none)
    ∧ ((jsTruthy cfg.token = true ∨ jsTruthy cfg.password = true) →
      (GatewayClient.connectParams cfg now).auth =
        some { token := if jsTruthy cfg.token then cfg.token else none,
               password := if jsTruthy cfg.password then cfg.password else none })
    ∧ (GatewayClient.connectParams cfg now).role = "operator"
    ∧ (GatewayClient.connectParams cfg now).scopes =
        ["operator.read", "operator.write", "operator.admin", "operator.approvals",
         "operator.pairing"]
    ∧ (GatewayClient.connectParams cfg now).minProtocol = 3
    ∧ (GatewayClient.connectParams cfg now).maxProtocol = 3 := by
  refine ⟨fun h => ?_, fun h => ?_, rfl, rfl, rfl, rfl⟩
  · show GatewayClient.connectAuth cfg = none
    rw [GatewayClient.connectAuth]
    simp [h.1, h.2]
  · show GatewayClient.connectAuth cfg = _
    rw [GatewayClient.connectAuth]
    cases htok : jsTruthy cfg.token <;> cases hpw : jsTruthy cfg.password
    · rcases h with h | h
      · rw [htok] at h; exact absurd h (by simp)
      · rw [hpw] at h; exact absurd h (by simp)
    · simp [jsTruthy_isSome hpw]
    · simp [jsTruthy_isSome htok]
    · simp [jsTruthy_isSome htok, jsTruthy_isSome hpw]

def cfgNoSecrets : GatewayConfig :=
  { id := "g1", name := "G", url := "ws://u", token := none, password := none }

def cfgWithToken : GatewayConfig :=
  { id := "g2", name := "G2", url := "ws://u2", token := some "tok-123", password := none }

/-- C9 witness: with no secrets the auth field is absent; with a token it
contains exactly that token. -/
theorem C9_connect_request_witness :
    (GatewayClient.connectParams cfgNoSecrets 0).auth = none
    ∧ (GatewayClient.connectParams cfgWithToken 0).auth =
        some { token := if jsTruthy cfgWithToken.token then cfgWithToken.token else none,
               password := if jsTruthy cfgWithToken.password then cfgWithToken.password else none } :=
  ⟨(C9_connect_request_contents cfgNoSecrets 0).1 (by decide),
   (C9_connect_request_contents cfgWithToken 0).2.1 (Or.inl (by decide))⟩

def gwMidHandshake : GWState :=
  { ws := some WsPhase.opened, pending := [], connected := false, reconnectTimer := none,
    reconnectAttempts := 0, shouldReconnect := true, connectWaiting := true,
    connectId := some "r1_0", dialTimer := false, reqCounter := 1 }

/-- C6 counterexample: the guard in `request` checks only the socket
readyState.  In a state where the socket is open but the handshake has not
completed (the `Connected` state of the handshake machine in the spec has not been
entered: `_connected = false`), `request` does not fail with NotConnected:
it registers a pending slot and sends the frame. -/
theorem C6_request_midhandshake_counterexample :
    gwMidHandshake.connected = false
    ∧ GatewayClient.request gwMidHandshake "chat.send" "p" none 5 =
        Except.ok ({ gwMidHandshake with reqCounter := 2, pending := [("r2_5", 30000)] },
          [GWEffect.sentFrame (Frame.req "r2_5" "chat.send" (ReqParams.other "p"))])
    ∧ GatewayClient.request gwMidHandshake "chat.send" "p" none 5 ≠
        Except.error GWError.notConnected :=
  ⟨rfl, rfl, fun h => Except.noConfusion ((rfl :
      GatewayClient.request gwMidHandshake "chat.send" "p" none 5 =
        Except.ok ({ gwMidHandshake with reqCounter := 2, pending := [("r2_5", 30000)] },
          [GWEffect.sentFrame (Frame.req "r2_5" "chat.send" (ReqParams.other "p"))])).symm.trans h)⟩

/-- C6 (amended): a request fails immediately with NotConnected — with no
frame sent and no pending slot registered — exactly when the underlying
WebSocket is absent or not OPEN; when the socket is OPEN the request is
sent and a slot is registered even if the handshake has not completed. -/
theorem C6_request_not_connected_guard (st : GWState) (method params : String)
    (timeoutMs : Option Nat) (now : Nat) :
    (st.ws ≠ some WsPhase.opened →
      GatewayClient.request st method params timeoutMs now = Except.error GWError.notConnected)
    ∧ (st.ws = some WsPhase.opened →
      GatewayClient.request st method params timeoutMs now =
        Except.ok ({ st with
                     reqCounter := st.reqCounter + 1,
                     pending := (nextId (st.reqCounter + 1) now, timeoutMs.getD 30000)
                       :: st.pending },
          [GWEffect.sentFrame (Frame.req (nextId (st.reqCounter + 1) now) method
            (ReqParams.other params))])) := by
  constructor
  · intro h
    unfold GatewayClient.request
    cases hws : st.ws with
    | none => rfl
    | some ph =>
      cases ph with
      | opened => exact absurd hws h
      | connecting => rfl
      | closed => rfl
  · intro h
    unfold GatewayClient.request
    rw [h]
    rfl

def gwNotOpen : GWState :=
  { ws := some WsPhase.connecting, pending := [], connected := false, reconnectTimer := none,
    reconnectAttempts := 0, shouldReconnect := true, connectWaiting := true,
    connectId := none, dialTimer := true, reqCounter := 0 }

/-- C6 witness: a request on a still-dialing socket fails with
NotConnected. -/
theorem C6_request_guard_witness :
    GatewayClient.request gwNotOpen "chat.send" "p" none 0 = Except.error GWError.notConnected :=
  (C6_request_not_connected_guard gwNotOpen "chat.send" "p" none 0).1 (by decide)

def cfgDemo : GatewayConfig :=
  { id := "g1", name := "G", url := "ws://u", token := none, password := none }

/-- C4: when the deadline timer of a pending request fires, the request is
rejected with `Request timeout` and its slot is removed; a response for
that correlation id arriving afterwards finds no slot and is discarded
without any state change or effect.  The registered deadline defaults to
30000 ms. -/
theorem C4_timeout_removes_slot_and_discards_late_response
    (cfg : GatewayConfig) (st : GWState) (id : String) (now : Nat)
    (ok : Option Bool) (err : Option String)
    (hpend : (pendingLookup st.pending id).isSome = true)
    (hcid : connectIdMatches st.connectId id = false)
    (hnodup : (st.pending.map Prod.fst).Nodup) :
    GatewayClient.onRequestTimeout st id =
      ({ st with pending := pendingDelete st.pending id },
       [GWEffect.rejected id GWError.timeout])
    ∧ pendingLookup (pendingDelete st.pending id) id = none
    ∧ GatewayClient.handleMessage cfg now
        { st with pending := pendingDelete st.pending id } (WireMsg.res id ok err) =
      ({ st with pending := pendingDelete st.pending id }, [])
    ∧ GatewayClient.defaultTimeoutMs = 30000 := by
  have hdel : pendingLookup (pendingDelete st.pending id) id = none :=
    pendingLookup_delete_self st.pending id hnodup
  refine ⟨?_, hdel, ?_, rfl⟩
  · rw [GatewayClient.onRequestTimeout, if_pos hpend]
  · simp only [GatewayClient.handleMessage, hcid, hdel, Bool.false_eq_true, if_false]

def gwConnectedPending : GWState :=
  { ws := some WsPhase.opened, pending := [("r1_7", 30000)], connected := true,
    reconnectTimer := none, reconnectAttempts := 0, shouldReconnect := true,
    connectWaiting := false, connectId := none, dialTimer := false, reqCounter := 1 }

/-- C4 witness: a concrete connected state with one pending slot. -/
theorem C4_timeout_witness :
    GatewayClient.onRequestTimeout gwConnectedPending "r1_7" =
      ({ gwConnectedPending with pending := pendingDelete gwConnectedPending.pending "r1_7" },
       [GWEffect.rejected "r1_7" GWError.timeout])
    ∧ pendingLookup (pendingDelete gwConnectedPending.pending "r1_7") "r1_7" = none
    ∧ GatewayClient.handleMessage cfgDemo 8
        { gwConnectedPending with pending := pendingDelete gwConnectedPending.pending "r1_7" }
        (WireMsg.res "r1_7" (some true) none) =
      ({ gwConnectedPending with pending := pendingDelete gwConnectedPending.pending "r1_7" }, [])
    ∧ GatewayClient.defaultTimeoutMs = 30000 :=
  C4_timeout_removes_slot_and_discards_late_response cfgDemo gwConnectedPending "r1_7" 8
    (some true) none (by decide) (by decide) (by decide)

/-- C5: when the socket closes, every pending request is rejected with the
ConnectionLost-kind error (`Connection closed: ...`) and the pending table
is empty afterwards; if the connection was in Connected state and reconnect
is enabled (and the attempt budget is not exhausted, which always holds
when connected since the counter is reset on successful connect), a backoff
reconnect timer is armed. -/
theorem C5_close_fails_all_pending (st : GWState) (code : Nat) (reason : String) :
    (GatewayClient.onClose st code reason).1.pending = []
    ∧ (∀ p ∈ st.pending,
        GWEffect.rejected p.1
            (GWError.connectionClosed
              ("Connection closed: " ++ jsOrStr reason (natToDecimal code)))
          ∈ (GatewayClient.onClose st code reason).2)
    ∧ (GWError.connectionClosed
          ("Connection closed: " ++ jsOrStr reason (natToDecimal code))).isConnectionLost = true
    ∧ (st.connected = true → st.shouldReconnect = true → st.reconnectAttempts < 10 →
        GWEffect.timerSet (min (1000 * 2 ^ st.reconnectAttempts) 30000)
          ∈ (GatewayClient.onClose st code reason).2) := by
  refine ⟨?_, ?_, rfl, ?_⟩
  · unfold GatewayClient.onClose GatewayClient.flushPending GatewayClient.scheduleReconnect
    by_cases hw : st.connectWaiting <;>
      by_cases hc : st.connected <;>
      by_cases hs : st.shouldReconnect <;>
      by_cases hra : GatewayClient.maxReconnectAttempts ≤ st.reconnectAttempts <;>
      simp [hw, hc, hs, hra]
  · intro p hp
    unfold GatewayClient.onClose GatewayClient.flushPending GatewayClient.scheduleReconnect
    by_cases hw : st.connectWaiting <;>
      by_cases hc : st.connected <;>
      by_cases hs : st.shouldReconnect <;>
      by_cases hra : GatewayClient.maxReconnectAttempts ≤ st.reconnectAttempts <;>
      simp [hw, hc, hs, hra] <;>
      exact ⟨p.2, hp⟩
  · intro h1 h2 h3
    unfold GatewayClient.onClose GatewayClient.flushPending GatewayClient.scheduleReconnect
    by_cases hw : st.connectWaiting <;>
      simp [hw, h1, h2, GatewayClient.maxReconnectAttempts, Nat.not_le.mpr h3]

def gwConnA : GWState :=
  { ws := some WsPhase.opened, pending := [("r1_7", 30000), ("r2_9", 5000)], connected := true,
    reconnectTimer := none, reconnectAttempts := 0, shouldReconnect := true,
    connectWaiting := false, connectId := none, dialTimer := false, reqCounter := 2 }

/-- C5 witness: a connected state with two pending requests, closed with
code 1006 and empty reason. -/
theorem C5_close_witness :
    (GatewayClient.onClose gwConnA 1006 "").1.pending = []
    ∧ GWEffect.rejected "r1_7"
        (GWError.connectionClosed ("Connection closed: " ++ jsOrStr "" (natToDecimal 1006)))
        ∈ (GatewayClient.onClose gwConnA 1006 "").2
    ∧ GWEffect.timerSet (min (1000 * 2 ^ gwConnA.reconnectAttempts) 30000)
        ∈ (GatewayClient.onClose gwConnA 1006 "").2 :=
  ⟨(C5_close_fails_all_pending gwConnA 1006 "").1,
   (C5_close_fails_all_pending gwConnA 1006 "").2.1 ("r1_7", 30000) (by decide),
   (C5_close_fails_all_pending gwConnA 1006 "").2.2.2 (by decide) (by decide) (by decide)⟩

/-- C10: for the downstream sockets a reconnect timer is armed after a
close only when reconnection is enabled and the close code is not 1000;
after `disconnect()` reconnection is disabled, both heartbeat timers and
the reconnect timer are cancelled and the socket is dropped, so no later
close or timer event schedules a reconnect and no further frame (ping or
chat) can be sent on that socket. -/
theorem C10_downstream_reconnect_policy (st : CSState) (fs : FCSState)
    (code : Nat) (reason : String) :
    ((∃ d, CSEffect.timerSet d ∈ (ChatSocket.onClose st code reason).2) →
      st.shouldReconnect = true ∧ code ≠ 1000)
    ∧ ((∃ d, CSEffect.timerSet d ∈ (FederatedChatSocket.onClose fs code reason).2) →
      fs.shouldReconnect = true ∧ code ≠ 1000)
    ∧ (ChatSocket.disconnect st).1.shouldReconnect = false
    ∧ (ChatSocket.disconnect st).1.pingInterval = false
    ∧ (ChatSocket.disconnect st).1.pongTimeout = false
    ∧ (ChatSocket.disconnect st).1.reconnectTimer = none
    ∧ (ChatSocket.disconnect st).1.ws = none
    ∧ (∀ code2 reason2 d2,
        CSEffect.timerSet d2 ∉ (ChatSocket.onClose (ChatSocket.disconnect st).1 code2 reason2).2)
    ∧ (∀ dialOk, ChatSocket.onReconnectFire (ChatSocket.disconnect st).1 dialOk =
        ((ChatSocket.disconnect st).1, []))
    ∧ ChatSocket.heartbeatTick (ChatSocket.disconnect st).1 = ((ChatSocket.disconnect st).1, [])
    ∧ (∀ sk m adv, ChatSocket.send (ChatSocket.disconnect st).1 sk m adv =
        Except.error CSError.notConnected)
    ∧ (FederatedChatSocket.disconnect fs).1.shouldReconnect = false
    ∧ (FederatedChatSocket.disconnect fs).1.pingInterval = false
    ∧ (FederatedChatSocket.disconnect fs).1.ws = none
    ∧ (∀ code2 reason2 d2,
        CSEffect.timerSet d2 ∉
          (FederatedChatSocket.onClose (FederatedChatSocket.disconnect fs).1 code2 reason2).2)
    ∧ FederatedChatSocket.heartbeatTick (FederatedChatSocket.disconnect fs).1 =
        ((FederatedChatSocket.disconnect fs).1, []) := by
  refine ⟨?_, ?_, rfl, rfl, rfl, rfl, rfl, ?_, ?_, rfl, fun sk m adv => rfl,
    rfl, rfl, rfl, ?_, rfl⟩
  · rintro ⟨d, hd⟩
    unfold ChatSocket.onClose ChatSocket.scheduleReconnect ChatSocket.stopHeartbeat at hd
    by_cases hs : st.shouldReconnect <;>
      by_cases hcode : code = 1000 <;>
      by_cases hra : ChatSocket.maxReconnectAttempts ≤ st.reconnectAttempts <;>
      simp [hs, hcode, hra] at hd <;>
      exact ⟨hs, hcode⟩
  · rintro ⟨d, hd⟩
    unfold FederatedChatSocket.onClose FederatedChatSocket.scheduleReconnect
      FederatedChatSocket.stopHeartbeat at hd
    by_cases hs : fs.shouldReconnect <;>
      by_cases hcode : code = 1000 <;>
      by_cases hra : FederatedChatSocket.maxReconnectAttempts ≤ fs.reconnectAttempts <;>
      simp [hs, hcode, hra] at hd <;>
      exact ⟨hs, hcode⟩
  · intro code2 reason2 d2 hd
    unfold ChatSocket.onClose ChatSocket.scheduleReconnect ChatSocket.disconnect at hd
    simp [ChatSocket.stopHeartbeat] at hd
  · intro dialOk
    rfl
  · intro code2 reason2 d2 hd
    unfold FederatedChatSocket.onClose FederatedChatSocket.scheduleReconnect
      FederatedChatSocket.disconnect at hd
    simp [FederatedChatSocket.stopHeartbeat] at hd

def csLive : CSState :=
  { ws := some WsPhase.opened, gwId := some "g1", reconnectTimer := none,
    reconnectAttempts := 0, shouldReconnect := true, pingInterval := true, pongTimeout := false }

def fcsLive : FCSState :=
  { ws := some WsPhase.opened, reconnectTimer := none, reconnectAttempts := 0,
    shouldReconnect := true, pingInterval := true, pongTimeout := false }

/-- C10 witness: live sockets closed abnormally do schedule; after
disconnect nothing is scheduled or sent. -/
theorem C10_downstream_witness :
    (csLive.shouldReconnect = true ∧ (1006 : Nat) ≠ 1000)
    ∧ (fcsLive.shouldReconnect = true ∧ (1006 : Nat) ≠ 1000)
    ∧ CSEffect.timerSet 1000 ∉
        (ChatSocket.onClose (ChatSocket.disconnect csLive).1 1006 "retry").2
    ∧ ChatSocket.onReconnectFire (ChatSocket.disconnect csLive).1 true =
        ((ChatSocket.disconnect csLive).1, [])
    ∧ ChatSocket.send (ChatSocket.disconnect csLive).1 "s1" "hello" none =
        Except.error CSError.notConnected := by
  have h := C10_downstream_reconnect_policy csLive fcsLive 1006 "retry"
  exact ⟨h.1 ⟨1000, by decide⟩, h.2.1 ⟨1000, by decide⟩,
    h.2.2.2.2.2.2.2.1 1006 "retry" 1000,
    h.2.2.2.2.2.2.2.2.1 true,
    h.2.2.2.2.2.2.2.2.2.2.1 "s1" "hello" none⟩

/-- An effect that sends a `connect` request frame. -/
def isConnectReqFrame : GWEffect → Bool
  | GWEffect.sentFrame (Frame.req _ m _) => m == "connect"
  | _ => false

lemma sentFrame_notMem_onClose (st : GWState) (code : Nat) (reason : String) (f : Frame) :
    GWEffect.sentFrame f ∉ (GatewayClient.onClose st code reason).2 := by
  intro hmem
  unfold GatewayClient.onClose GatewayClient.flushPending GatewayClient.scheduleReconnect at hmem
  by_cases hw : st.connectWaiting <;>
    by_cases hc : st.connected <;>
    by_cases hs : st.shouldReconnect <;>
    by_cases hra : GatewayClient.maxReconnectAttempts ≤ st.reconnectAttempts <;>
    simp [hw, hc, hs, hra] at hmem

/-- C7 counterexample: after `connect()` and socket open (with no challenge
yet), the 15-second timer — which was armed at dial time — has already been
cleared by the `open` listener.  There is no challenge deadline: letting
the timer event occur changes nothing, no reconnect timer is armed, and
the client keeps waiting, contradicting the claimed transition to Backoff
15 s after open. -/
theorem C7_no_challenge_deadline_counterexample :
    ((GatewayClient.step cfgNoSecrets 0
        (GatewayClient.connect
          { ws := none, pending := [], connected := false, reconnectTimer := none,
            reconnectAttempts := 0, shouldReconnect := true, connectWaiting := false,
            connectId := none, dialTimer := false, reqCounter := 0 })
        GWEvent.sockOpen).1.dialTimer = false)
    ∧ (GatewayClient.step cfgNoSecrets 15000
        (GatewayClient.step cfgNoSecrets 0
          (GatewayClient.connect
            { ws := none, pending := [], connected := false, reconnectTimer := none,
              reconnectAttempts := 0, shouldReconnect := true, connectWaiting := false,
              connectId := none, dialTimer := false, reqCounter := 0 })
          GWEvent.sockOpen).1
        GWEvent.dialTimeout
      = ((GatewayClient.step cfgNoSecrets 0
          (GatewayClient.connect
            { ws := none, pending := [], connected := false, reconnectTimer := none,
              reconnectAttempts := 0, shouldReconnect := true, connectWaiting := false,
              connectId := none, dialTimer := false, reqCounter := 0 })
          GWEvent.sockOpen).1, []))
    ∧ ((GatewayClient.step cfgNoSecrets 0
        (GatewayClient.connect
          { ws := none, pending := [], connected := false, reconnectTimer := none,
            reconnectAttempts := 0, shouldReconnect := true, connectWaiting := false,
            connectId := none, dialTimer := false, reqCounter := 0 })
        GWEvent.sockOpen).1.reconnectTimer = none)
    ∧ ((GatewayClient.step cfgNoSecrets 0
        (GatewayClient.connect
          { ws := none, pending := [], connected := false, reconnectTimer := none,
            reconnectAttempts := 0, shouldReconnect := true, connectWaiting := false,
            connectId := none, dialTimer := false, reqCounter := 0 })
        GWEvent.sockOpen).2 = []) := by
  refine ⟨rfl, rfl, rfl, rfl⟩

/-- C7 (amended): the client never sends a `connect` request except in
direct reaction to a received `connect.challenge` event — in particular
never before one arrives; the 15-second timer is a dial timeout: it is
armed when the connection attempt starts and cleared by the `open`
listener, so once the socket is open there is no challenge deadline (the
timer event is a no-op) and an absent challenge leaves the connection
waiting rather than transitioning to Backoff. -/
theorem C7_connect_only_after_challenge (cfg : GatewayConfig) (now : Nat)
    (st : GWState) (ev : GWEvent) :
    (∀ e ∈ (GatewayClient.step cfg now st ev).2, isConnectReqFrame e = true →
      ∃ payload, ev = GWEvent.message (WireMsg.event "connect.challenge" payload))
    ∧ (GatewayClient.onOpen st).dialTimer = false
    ∧ GatewayClient.onDialTimeout (GatewayClient.onOpen st) = (GatewayClient.onOpen st, [])
    ∧ (GatewayClient.step cfg now st GWEvent.sockOpen).2 = [] := by
  refine ⟨?_, rfl, rfl, rfl⟩
  intro e he hc
  obtain ⟨fid, fparams, rfl⟩ :
      ∃ fid fparams, e = GWEffect.sentFrame (Frame.req fid "connect" fparams) := by
    cases e with
    | sentFrame f =>
      cases f with
      | req i m p =>
        simp [isConnectReqFrame] at hc
        exact ⟨i, p, by rw [hc]⟩
    | resolved i => simp [isConnectReqFrame] at hc
    | rejected i er => simp [isConnectReqFrame] at hc
    | connectResolved => simp [isConnectReqFrame] at hc
    | connectRejected er => simp [isConnectReqFrame] at hc
    | emitted n => simp [isConnectReqFrame] at hc
    | timerSet d => simp [isConnectReqFrame] at hc
    | wsClose => simp [isConnectReqFrame] at hc
  cases ev with
  | sockOpen => simp [GatewayClient.step] at he
  | sockClosed code reason =>
    exact absurd he (sentFrame_notMem_onClose st code reason _)
  | sockError =>
    unfold GatewayClient.step GatewayClient.onError at he
    by_cases hw : st.connectWaiting <;> simp [hw] at he
  | dialTimeout =>
    unfold GatewayClient.step GatewayClient.onDialTimeout at he
    by_cases hd : st.dialTimer <;> simp [hd] at he
  | requestTimeout i =>
    unfold GatewayClient.step GatewayClient.onRequestTimeout at he
    by_cases hp : (pendingLookup st.pending i).isSome <;> simp [hp] at he
  | reconnectTimerFire =>
    simp [GatewayClient.step, GatewayClient.onReconnectFire] at he
  | message m =>
    cases m with
    | parseError => simp [GatewayClient.step, GatewayClient.handleMessage] at he
    | event name payload =>
      unfold GatewayClient.step GatewayClient.handleMessage at he
      by_cases hn : name == "connect.challenge"
      · have hname : name = "connect.challenge" := by simpa using hn
        exact ⟨payload, by rw [hname]⟩
      · by_cases h1 : name == "chat" <;>
          by_cases h2 : name == "exec.approval.requested" <;>
          simp [hn, h1, h2] at he
    | res i ok err =>
      unfold GatewayClient.step GatewayClient.handleMessage at he
      by_cases hm : connectIdMatches st.connectId i
      · by_cases hsucc : (ok != some false && err == none) = true <;>
          by_cases hcw : st.connectWaiting <;>
          simp [hm, hsucc, hcw] at he
      · cases hlk : pendingLookup st.pending i with
        | none => simp [hm, hlk] at he
        | some v =>
          by_cases hsucc : (ok != some false && err == none) = true <;>
            simp [hm, hlk, hsucc] at he

/-- C7 witness: a challenge event does emit a `connect` frame, and the
theorem pins its trigger. -/
theorem C7_connect_after_challenge_witness :
    ∃ payload, GWEvent.message (WireMsg.event "connect.challenge" "nonce")
      = GWEvent.message (WireMsg.event "connect.challenge" payload) :=
  (C7_connect_only_after_challenge cfgNoSecrets 0
      (GatewayClient.onOpen (GatewayClient.connect
        { ws := none, pending := [], connected := false, reconnectTimer := none,
          reconnectAttempts := 0, shouldReconnect := true, connectWaiting := false,
          connectId := none, dialTimer := false, reqCounter := 0 }))
      (GWEvent.message (WireMsg.event "connect.challenge" "nonce"))).1
    (GWEffect.sentFrame (Frame.req (nextId 1 0) "connect"
      (ReqParams.connect (GatewayClient.connectParams cfgNoSecrets 0))))
    (by decide) (by decide)
